import Mathlib

/-!
Shallow embedding of the grading-decision pipeline of hyper-speed-grader
(src/main.py and src/ai.py).

External collaborators are modelled as explicit parameters:

* the Canvas LMS is a `World` holding the course data and a submission
  store; a successful `submission.edit` updates the store (so a later
  `get_submission` sees the written grade); `editFails` marks the student
  ids for which the LMS raises on `edit`;
* the grading oracle is a function from the student answer text to the raw
  structured response (`OracleRaw`); the prompt and task texts are fixed
  for a whole run, so they are elided from the key;
* interactive stdin is a list of input lines, consumed in order; an
  exhausted list models end of input (Python raises EOFError there, which
  nothing in main.py catches).

Observable behaviour is a trace of `Effect`s plus an `Except` value
describing normal versus exceptional termination (SystemExit and uncaught
exceptions are both `Except.error`; in CPython both end the process with a
non-zero exit status for the cases modelled here).
-/

/-- A Canvas submission as probed by main.py: the four duck-typed grade
fields and the body.  A raw field value v of the Canvas object is mapped
to `some (str v)` and a missing/None field to `none`.  This is faithful to
the probe in `_grade_of` (main.py lines 56-64) because its emptiness test
(val is not None and val not equal to the empty string) agrees with the
test on the mapped string: str of a number is never empty, and str of a
string is the string itself. -/
structure Submission where
  score : Option String
  grade : Option String
  posted_grade : Option String
  entered_grade : Option String
  body : Option String
deriving DecidableEq, Repr

/-- A course user as used by main.py: only id and display name matter. -/
structure User where
  id : Nat
  name : String
deriving DecidableEq, Repr

/-- A course assignment; main.py only reads its name and its position. -/
structure Assignment where
  name : String
deriving DecidableEq, Repr

/-- The --confirmation CLI choices (argparse restricts to these three). -/
inductive Mode where
  | full
  | none
  | mistakes
deriving DecidableEq, Repr

/-- A Python float as produced by the builtin float conversion: a finite
value (modelled as an exact rational; the binary rounding of CPython is
irrelevant to every claim, which only depend on success, finiteness and
identity of the parsed value) or one of the non-finite values. -/
inductive PyFloat where
  | finite (q : ℚ)
  | inf
  | neginf
  | nan
deriving DecidableEq, Repr

/-- Whether a Python float value is finite. -/
def PyFloat.isFinite : PyFloat → Bool
  | .finite _ => true
  | _ => false

/-- A JSON value as produced by json.loads for a single field.  Arrays and
objects are collapsed to markers: the only operations applied to field
values in the source are the float builtin (which raises TypeError on
both) and the str builtin (whose exact rendering of them is irrelevant to
every claim). -/
inductive Json where
  | null
  | bool (b : Bool)
  | num (q : ℚ)
  | str (s : String)
  | arr
  | obj
deriving DecidableEq, Repr

/-- Python str.strip on the character list: drop leading and trailing
whitespace. -/
def stripList (cs : List Char) : List Char :=
  ((cs.dropWhile Char.isWhitespace).reverse.dropWhile Char.isWhitespace).reverse

/-- Python str.strip as used on every input() result in main.py. -/
def pyStrip (s : String) : String := String.mk (stripList s.toList)

/-- ASCII case folding; every token the source compares after lower() is
ASCII, where Python str.lower agrees. -/
def asciiLowerChar (c : Char) : Char :=
  if 'A' ≤ c ∧ c ≤ 'Z' then Char.ofNat (c.toNat + 32) else c

/-- Python str.lower (ASCII fragment). -/
def pyLower (s : String) : String := String.mk (s.toList.map asciiLowerChar)

/-- Digits of a decimal run: accumulated value, number of digits consumed,
rest of the input. -/
def parseDigitsAux : List Char → Nat → Nat → Nat × Nat × List Char
  | [], v, n => (v, n, [])
  | c :: rest, v, n =>
    if c.isDigit then parseDigitsAux rest (10 * v + (c.toNat - 48)) (n + 1)
    else (v, n, c :: rest)

def parseDigits (cs : List Char) : Nat × Nat × List Char :=
  parseDigitsAux cs 0 0

/-- The decimal part of the Python float grammar (after sign stripping):
digits [ . digits ] [ (e|E) [sign] digits ], with at least one digit
before the exponent marker.  Numeric-literal underscores (PEP 515) are not
modelled; no claim depends on them. -/
def parseDecimal (cs : List Char) : Option ℚ :=
  let (ip, n1, r1) := parseDigits cs
  let fracStep : Nat × Nat × List Char :=
    match r1 with
    | '.' :: t => parseDigits t
    | _ => (0, 0, r1)
  let (fp, n2, r2) := fracStep
  if n1 + n2 = 0 then Option.none
  else
    let mant : Nat := ip * 10 ^ n2 + fp
    match r2 with
    | [] => some (Rat.divInt (mant : Int) ((10 : Int) ^ n2))
    | e :: t =>
      if e = 'e' ∨ e = 'E' then
        let signStep : Bool × List Char :=
          match t with
          | '+' :: t2 => (false, t2)
          | '-' :: t2 => (true, t2)
          | _ => (false, t)
        let (eneg, t2) := signStep
        let (ev, n3, t3) := parseDigits t2
        if n3 = 0 ∨ t3 ≠ [] then Option.none
        else if eneg then some (Rat.divInt (mant : Int) ((10 : Int) ^ (n2 + ev)))
        else some (Rat.divInt ((mant : Int) * (10 : Int) ^ ev) ((10 : Int) ^ n2))
      else Option.none

/-- The builtin float applied to a string: strip whitespace, optional
sign, then either a case-insensitive inf / infinity / nan keyword or a
decimal literal.  Returns none where CPython raises ValueError. -/
def pyFloatOfString (s : String) : Option PyFloat :=
  let cs := stripList s.toList
  let signStep : Bool × List Char :=
    match cs with
    | '+' :: t => (false, t)
    | '-' :: t => (true, t)
    | _ => (false, cs)
  let (neg, cs2) := signStep
  let lowered := String.mk (cs2.map asciiLowerChar)
  if lowered = "inf" ∨ lowered = "infinity" then
    some (if neg then PyFloat.neginf else PyFloat.inf)
  else if lowered = "nan" then some PyFloat.nan
  else
    match parseDecimal cs2 with
    | Option.none => Option.none
    | some q => some (PyFloat.finite (if neg then -q else q))

/-- The builtin float applied to a JSON field value (ai.py line 78): JSON
numbers convert exactly, strings go through the string grammar, booleans
convert to 0 or 1; null, arrays and objects raise TypeError (none). -/
def pyFloatOfJson : Json → Option PyFloat
  | .num q => some (.finite q)
  | .str s => pyFloatOfString s
  | .bool b => some (.finite (if b then 1 else 0))
  | .null => Option.none
  | .arr => Option.none
  | .obj => Option.none

/-- The builtin str applied to a JSON field value (ai.py line 79).  Only
the string case and the default-empty case matter to any claim; the
renderings of the other cases are placeholders for the CPython text. -/
def pyStrOfJson : Json → String
  | .str s => s
  | .null => "None"
  | .bool b => if b then "True" else "False"
  | .num q => toString q
  | .arr => "[]"
  | .obj => "\x7b\x7d"

/-- The builtin int applied to a (stripped) string, base 10: optional
sign plus a nonempty digit run.  Returns none where CPython raises
ValueError.  Used by prompt_task_num (main.py line 31). -/
def pyIntOfString (s : String) : Option Int :=
  let cs := stripList s.toList
  let signStep : Bool × List Char :=
    match cs with
    | '+' :: t => (false, t)
    | '-' :: t => (true, t)
    | _ => (false, cs)
  let (neg, cs2) := signStep
  if cs2 = [] then Option.none
  else if cs2.all Char.isDigit then
    let v : Nat := cs2.foldl (fun a c => 10 * a + (c.toNat - 48)) 0
    some (if neg then -(v : Int) else (v : Int))
  else Option.none

/-- The validated oracle result returned by ask_model (ai.py line 81). -/
structure GradingResult where
  grade : PyFloat
  comment : String
deriving DecidableEq, Repr

/-- The parsed JSON object of a structured oracle response: the two fields
the source reads, each possibly absent. -/
structure StructuredResponse where
  grade : Option Json
  comment : Option Json
deriving DecidableEq, Repr

/-- The raw outcome of the chat-completion call as seen by the response
handling in ask_model (ai.py lines 70-81): content None, content that is
not valid JSON, or a parsed JSON object. -/
inductive OracleRaw where
  | nothing
  | malformed
  | obj (r : StructuredResponse)
deriving DecidableEq, Repr

/-- Response handling of ask_model (ai.py lines 70-81).  The network call
itself is the external collaborator; given its raw outcome this mirrors:
raise when content is None, json.loads (raising on malformed content),
grade coerced with the float builtin (KeyError when absent, ValueError or
TypeError when not coercible), comment defaulting to the empty string and
passed through the str builtin. -/
def ask_model (raw : OracleRaw) : Except String GradingResult :=
  match raw with
  | .nothing => .error "Model returned nothing"
  | .malformed => .error "json.decoder.JSONDecodeError"
  | .obj r =>
    match r.grade with
    | Option.none => .error "KeyError: grade"
    | some j =>
      match pyFloatOfJson j with
      | Option.none => .error "could not convert value to float"
      | some g => .ok ⟨g, pyStrOfJson ((r.comment).getD (Json.str ""))⟩

/-- The grade/comment payload of a submission.edit call: the value put
under posted_grade, and the text_comment when the comment dict is passed
(None when the comment is empty — main.py lines 140-142 and 361-368). -/
structure UpdatePayload where
  posted_grade : PyFloat
  text_comment : Option String
deriving DecidableEq, Repr

/-- One observable interaction with an external collaborator. -/
inductive Effect where
  | fetchSub (sid : Nat)
  | oracleCall (answer : String)
  | persist (sid : Nat) (payload : UpdatePayload)
  | dryRunReport (payload : UpdatePayload)
  | warnNotFound (name : String)
deriving DecidableEq, Repr

/-- String rendering of a grade written back by submission.edit, as later
probes see it.  Only its non-emptiness matters to the pipeline; the exact
CPython rendering of finite floats is irrelevant to every claim. -/
def pyStrOfFloat : PyFloat → String
  | .finite q => toString q
  | .inf => "inf"
  | .neginf => "-inf"
  | .nan => "nan"

/-- The external LMS course as seen by one run: the assignment list in its
natural API order, the full user list (course.get_users()), the
student-role user list (course.get_users with the student enrollment
filter), the submission store keyed by (0-based assignment position,
student id), and the set of student ids for which submission.edit raises.
init() reads fixed environment variables, so both init() calls of main
return the same course; the course data is assumed stable across the run
(the LMS is an external store; only the writes of this run mutate it). -/
structure World where
  assignments : List Assignment
  allUsers : List User
  studentUsers : List User
  fetch : Nat → Nat → Option Submission
  editFails : Nat → Bool

/-- A successful submission.edit posting grade g: later fetches of that
(assignment, student) cell see a non-empty recorded grade. -/
def World.applyEdit (w : World) (aidx sid : Nat) (g : PyFloat) : World :=
  { w with
    fetch := fun a s =>
      if a = aidx ∧ s = sid then
        (w.fetch a s).map fun sub => { sub with grade := some (pyStrOfFloat g) }
      else w.fetch a s }

/-- The parsed CLI arguments of main.py that the pipeline reads.  The
prompt and task file contents are loaded before anything else and only
flow into the fixed oracle context, so they are elided; students is the
name list loaded from the --students CSV (none when the flag is omitted;
a CSV read error exits before any processing and is outside the model). -/
structure Args where
  students : Option (List String)
  task_num : Int
  dry_run : Bool
  confirmation : Mode

/-- Probe of the duck-typed grade fields inside _grade_of (main.py lines
60-63): iterate the attributes in order, returning the first value that is
neither None nor the empty string. -/
def probeFields : List (Option String) → String
  | [] => ""
  | Option.none :: rest => probeFields rest
  | some v :: rest => if v ≠ "" then v else probeFields rest

/-- _grade_of (main.py lines 56-64): the string form of an existing grade,
or the empty string when the submission is None or carries no non-empty
grade value; fields probed in the order score, grade, posted_grade,
entered_grade. -/
def _grade_of (s : Option Submission) : String :=
  match s with
  | Option.none => ""
  | some sub => probeFields [sub.score, sub.grade, sub.posted_grade, sub.entered_grade]

/-- The empty-submission test of main.py lines 169 and 317 (not submission
or not submission.body or len(submission.body) == 0), returning the answer
text in the proceed case. -/
def body_of (s : Option Submission) : Option String :=
  match s with
  | Option.none => Option.none
  | some sub =>
    match sub.body with
    | Option.none => Option.none
    | some b => if b = "" then Option.none else some b

/-- The confirmation dispatch of process_student (main.py lines 187-193):
full always prompts, mistakes prompts exactly when the comment string is
truthy (non-empty), none never prompts. -/
def should_prompt (mode : Mode) (comment : String) : Bool :=
  match mode with
  | Mode.full => true
  | Mode.mistakes => comment != ""
  | Mode.none => false

/-- apply_update (main.py lines 139-152): build the payload (comment dict
passed only when the comment string is truthy), report it without writing
under dry-run, otherwise attempt submission.edit with the exception from a
failing edit caught and logged (so apply_update never propagates). -/
def apply_update (w : World) (aidx sid : Nat) (grade : PyFloat) (comment : String)
    (dry_run : Bool) : List Effect × World :=
  let payload : UpdatePayload :=
    ⟨grade, if comment ≠ "" then some comment else Option.none⟩
  if dry_run then ([Effect.dryRunReport payload], w)
  else if w.editFails sid then ([Effect.persist sid payload], w)
  else ([Effect.persist sid payload], w.applyEdit aidx sid grade)

/-- The grade-override prompt loop (main.py lines 209-217, duplicated
verbatim at lines 338-346): read lines until a blank keeps the current
grade or a line parses with the float builtin; a non-numeric line
re-prompts.  Returns none on exhausted input (EOFError). -/
def grade_override_loop (grade : PyFloat) : List String → List String × Option PyFloat
  | [] => ([], Option.none)
  | g :: rest =>
    let gi := pyStrip g
    if gi = "" then (rest, some grade)
    else
      match pyFloatOfString gi with
      | some f => (rest, some f)
      | Option.none => grade_override_loop grade rest

/-- The comment-override prompt (main.py lines 220-228, duplicated
verbatim at lines 349-357): blank keeps the current comment, the :q token
sets it empty, anything else replaces it (stripped). -/
def comment_override (current cIn : String) : String :=
  let t := pyStrip cIn
  if t = "" then current
  else if t = ":q" then ""
  else t

/-- Classification of how process_student returned. -/
inductive POutcome where
  | skippedGraded (g : String)
  | skippedEmpty
  | applied
  | manualDeferred
deriving DecidableEq, Repr

/-- The interactive confirmation loop of process_student (main.py lines
201-243).  Inputs are lowercased and stripped like the source; A applies
as-is, E runs the grade and comment overrides then applies, M prints the
manual link and, on a blank or y answer, returns with no write, otherwise
re-enters the menu; unknown choices re-prompt. -/
def interactive_loop (w : World) (aidx sid : Nat) (dry_run : Bool) (grade : PyFloat)
    (comment : String) : List String → List Effect × List String × Except String POutcome × World
  | [] => ([], [], Except.error "EOFError", w)
  | choice :: rest =>
    let c := pyLower (pyStrip choice)
    if c = "a" then
      let au := apply_update w aidx sid grade comment dry_run
      (au.1, rest, Except.ok POutcome.applied, au.2)
    else if c = "e" then
      match grade_override_loop grade rest with
      | (rest2, Option.none) => ([], rest2, Except.error "EOFError", w)
      | (rest2, some g2) =>
        match rest2 with
        | [] => ([], [], Except.error "EOFError", w)
        | cIn :: rest3 =>
          let c2 := comment_override comment cIn
          let au := apply_update w aidx sid g2 c2 dry_run
          (au.1, rest3, Except.ok POutcome.applied, au.2)
    else if c = "m" then
      match rest with
      | [] => ([], [], Except.error "EOFError", w)
      | cont :: rest2 =>
        let ct := pyLower (pyStrip cont)
        if ct = "" ∨ ct = "y" then ([], rest2, Except.ok POutcome.manualDeferred, w)
        else interactive_loop w aidx sid dry_run grade comment rest2
    else interactive_loop w aidx sid dry_run grade comment rest

/-- process_student (main.py lines 155-243): fetch the submission, skip if
already graded, skip if the body is absent/empty, otherwise call the
oracle (exceptions from ask_model propagate to the caller), then either
auto-apply or run the interactive loop according to should_prompt. -/
def process_student (w : World) (oracle : String → OracleRaw) (aidx : Nat) (u : User)
    (dry_run : Bool) (mode : Mode) (inputs : List String) :
    List Effect × List String × Except String POutcome × World :=
  let sub := w.fetch aidx u.id
  let eg := _grade_of sub
  if eg ≠ "" then ([Effect.fetchSub u.id], inputs, Except.ok (POutcome.skippedGraded eg), w)
  else
    match body_of sub with
    | Option.none => ([Effect.fetchSub u.id], inputs, Except.ok POutcome.skippedEmpty, w)
    | some ans =>
      match ask_model (oracle ans) with
      | Except.error e => ([Effect.fetchSub u.id, Effect.oracleCall ans], inputs, Except.error e, w)
      | Except.ok res =>
        if should_prompt mode res.comment then
          let il := interactive_loop w aidx u.id dry_run res.grade res.comment inputs
          (Effect.fetchSub u.id :: Effect.oracleCall ans :: il.1, il.2.1, il.2.2.1, il.2.2.2)
        else
          let au := apply_update w aidx u.id res.grade res.comment dry_run
          (Effect.fetchSub u.id :: Effect.oracleCall ans :: au.1, inputs,
            Except.ok POutcome.applied, au.2)

/-- The first per-student loop of main (main.py lines 258-259).  There is
no try/except around process_student: an error return short-circuits the
remaining students. -/
def runPass1 (w : World) (oracle : String → OracleRaw) (aidx : Nat) :
    List User → Bool → Mode → List String →
    List Effect × List String × Except String Unit × World
  | [], _, _, inputs => ([], inputs, Except.ok (), w)
  | u :: rest, dry_run, mode, inputs =>
    let ps := process_student w oracle aidx u dry_run mode inputs
    match ps.2.2.1 with
    | Except.error e => (ps.1, ps.2.1, Except.error e, ps.2.2.2)
    | Except.ok _ =>
      let tail := runPass1 ps.2.2.2 oracle aidx rest dry_run mode ps.2.1
      (ps.1 ++ tail.1, tail.2.1, tail.2.2.1, tail.2.2.2)

/-- choose_assignment (main.py lines 96-106): SystemExit when the course
has no assignments or the 1-indexed task number is out of range, otherwise
the selected assignment, represented by its 0-based position (the object
itself is assignments[task_num - 1]).  The task_num-is-None check of line
100 is unreachable here because argparse makes --task-num required. -/
def choose_assignment (assignments : List Assignment) (task_num : Int) :
    Except String Nat :=
  if assignments.length = 0 then Except.error "No assignments found in course"
  else if task_num < 1 ∨ task_num > (assignments.length : Int) then
    Except.error "Invalid task_num"
  else Except.ok (task_num - 1).toNat

/-- The name-to-user dict of main.py line 112 combined with the .get
lookup of line 126: the dict comprehension lets a later user with the same
display name overwrite an earlier one, so the lookup returns the last
exact match in roster order, or none. -/
def lookupUser (users : List User) (n : String) : Option User :=
  users.foldl (fun acc u => if u.name = n then some u else acc) Option.none

/-- The name-resolution loop of build_students_to_process (main.py lines
125-130): walk the requested names in order, appending the exact-match
user or a warning for a name with no match. -/
def buildFromNames (users : List User) : List String → List Effect × List User
  | [] => ([], [])
  | n :: rest =>
    let tail := buildFromNames users rest
    match lookupUser users n with
    | Option.none => (Effect.warnNotFound n :: tail.1, tail.2)
    | some u => (tail.1, u :: tail.2)

/-- build_students_to_process (main.py lines 109-136): with a --students
CSV, resolve each requested name against the full-roster name dict; with
none, every student-role user in roster order.  (The CSV itself is loaded
before this resolution; a CSV read error exits the run and is outside the
model, which receives the loaded name list.) -/
def build_students_to_process (w : World) (studentsArg : Option (List String)) :
    List Effect × List User :=
  match studentsArg with
  | Option.none => ([], w.studentUsers)
  | some names => buildFromNames w.allUsers names

/-- prompt_task_num (main.py lines 23-36): read lines until one strips to
a valid integer in [1, count]; a blank line is SystemExit(2); a
non-integer or out-of-range line re-prompts; exhausted input is EOFError
(unhandled). -/
def prompt_task_num (count : Nat) : List String → List String × Except String Int
  | [] => ([], Except.error "EOFError")
  | s :: rest =>
    let t := pyStrip s
    if t = "" then (rest, Except.error "SystemExit: No task number provided")
    else
      match pyIntOfString t with
      | Option.none => prompt_task_num count rest
      | some n =>
        if 1 ≤ n ∧ n ≤ (count : Int) then (rest, Except.ok n)
        else prompt_task_num count rest

/-- The direct submission.edit call of the second pass (main.py lines
361-368): same payload shape as apply_update, but with no dry-run branch
and no try/except, so a failing edit propagates and halts the run. -/
def pass2_edit (w : World) (aidx : Nat) (u : User) (g : PyFloat) (c : String)
    (rest : List String) : List Effect × List String × Except String Unit × World :=
  let payload : UpdatePayload := ⟨g, if c ≠ "" then some c else Option.none⟩
  if w.editFails u.id then
    ([Effect.persist u.id payload], rest, Except.error "CanvasException: edit failed", w)
  else ([Effect.persist u.id payload], rest, Except.ok (), w.applyEdit aidx u.id g)

/-- The per-student body of the second loop in main (main.py lines
303-369): the same skip gates and oracle call as process_student, then —
with no confirmation-mode dispatch and no dry-run branch — an override
prompt sequence exactly when the comment is non-empty, followed by a
direct submission.edit. -/
def pass2_student (w : World) (oracle : String → OracleRaw) (aidx : Nat) (u : User)
    (inputs : List String) : List Effect × List String × Except String Unit × World :=
  let sub := w.fetch aidx u.id
  let eg := _grade_of sub
  if eg ≠ "" then ([Effect.fetchSub u.id], inputs, Except.ok (), w)
  else
    match body_of sub with
    | Option.none => ([Effect.fetchSub u.id], inputs, Except.ok (), w)
    | some ans =>
      match ask_model (oracle ans) with
      | Except.error e => ([Effect.fetchSub u.id, Effect.oracleCall ans], inputs, Except.error e, w)
      | Except.ok res =>
        if res.comment ≠ "" then
          match grade_override_loop res.grade inputs with
          | (rest2, Option.none) =>
            ([Effect.fetchSub u.id, Effect.oracleCall ans], rest2, Except.error "EOFError", w)
          | (rest2, some g2) =>
            match rest2 with
            | [] => ([Effect.fetchSub u.id, Effect.oracleCall ans], [], Except.error "EOFError", w)
            | cIn :: rest3 =>
              let c2 := comment_override res.comment cIn
              let pe := pass2_edit w aidx u g2 c2 rest3
              (Effect.fetchSub u.id :: Effect.oracleCall ans :: pe.1, pe.2.1, pe.2.2.1, pe.2.2.2)
        else
          let pe := pass2_edit w aidx u res.grade res.comment inputs
          (Effect.fetchSub u.id :: Effect.oracleCall ans :: pe.1, pe.2.1, pe.2.2.1, pe.2.2.2)

/-- The second per-student loop of main (main.py lines 303-369): like the
first loop, nothing catches a per-student exception, so an error halts the
remaining students. -/
def pass2_loop (w : World) (oracle : String → OracleRaw) (aidx : Nat) :
    List User → List String → List Effect × List String × Except String Unit × World
  | [], inputs => ([], inputs, Except.ok (), w)
  | u :: rest, inputs =>
    let ps := pass2_student w oracle aidx u inputs
    match ps.2.2.1 with
    | Except.error e => (ps.1, ps.2.1, Except.error e, ps.2.2.2)
    | Except.ok _ =>
      let tail := pass2_loop ps.2.2.2 oracle aidx rest ps.2.1
      (ps.1 ++ tail.1, tail.2.1, tail.2.2.1, tail.2.2.2)

/-- The second grading pass of main (main.py lines 263-372): re-initialize
the course (init reads the same environment, hence the same World),
re-list the assignments, interactively prompt for a task number (with an
unreachable re-check of the range at lines 270-271), rebuild the student
list by the same resolution logic (lines 276-300 duplicate
build_students_to_process verbatim), then run the second loop.  Neither
args.dry_run nor args.confirmation is read anywhere in this pass. -/
def runPass2 (w : World) (oracle : String → OracleRaw) (studentsArg : Option (List String))
    (inputs : List String) : List Effect × Except String Unit × World :=
  let count := w.assignments.length
  match prompt_task_num count inputs with
  | (_, Except.error e) => ([], Except.error e, w)
  | (rest, Except.ok tn) =>
    if tn > (count : Int) ∨ tn < 1 then
      ([], Except.error "ValueError: Invalid task_num", w)
    else
      let bp := build_students_to_process w studentsArg
      let pl := pass2_loop w oracle (tn - 1).toNat bp.2 rest
      (bp.1 ++ pl.1, pl.2.2.1, pl.2.2.2)

namespace Grader

/-- main (main.py lines 246-372): load prompt/task (external file reads,
elided — a failure exits before the course is touched), init the course,
choose the assignment, resolve the students, run the first per-student
loop, and — whenever that loop ends without an exception — run the second
grading pass on whatever input lines remain. -/
def main (args : Args) (w : World) (oracle : String → OracleRaw) (inputs : List String) :
    List Effect × Except String Unit × World :=
  match choose_assignment w.assignments args.task_num with
  | Except.error e => ([], Except.error e, w)
  | Except.ok aidx =>
    let bp := build_students_to_process w args.students
    let p1 := runPass1 w oracle aidx bp.2 args.dry_run args.confirmation inputs
    match p1.2.2.1 with
    | Except.error e => (bp.1 ++ p1.1, Except.error e, p1.2.2.2)
    | Except.ok _ =>
      let p2 := runPass2 p1.2.2.2 oracle args.students p1.2.1
      (bp.1 ++ p1.1 ++ p2.1, p2.2.1, p2.2.2)

end Grader

deriving instance DecidableEq for Except

/-- Ungraded submission with body "ans". -/
def sampleUngraded : Submission := ⟨Option.none, Option.none, Option.none, Option.none, some "ans"⟩

/-- Ungraded submission with body "a2". -/
def sampleUngraded2 : Submission := ⟨Option.none, Option.none, Option.none, Option.none, some "a2"⟩

/-- Submission already carrying score "4". -/
def sampleGraded : Submission := ⟨some "4", Option.none, Option.none, Option.none, some "ans"⟩

def userA : User := ⟨1, "A"⟩

def userB : User := ⟨2, "B"⟩

/-- One-assignment course with the single ungraded student A; edits succeed. -/
def sampleWorld1 : World :=
  { assignments := [⟨"T1"⟩], allUsers := [userA], studentUsers := [userA],
    fetch := fun a s => if a = 0 ∧ s = 1 then some sampleUngraded else Option.none,
    editFails := fun _ => false }

/-- One-assignment course with two ungraded students A and B; edits succeed. -/
def sampleWorld2 : World :=
  { assignments := [⟨"T1"⟩], allUsers := [userA, userB], studentUsers := [userA, userB],
    fetch := fun a s =>
      if a = 0 ∧ s = 1 then some sampleUngraded
      else if a = 0 ∧ s = 2 then some sampleUngraded2
      else Option.none,
    editFails := fun _ => false }

/-- One-assignment course whose single student A is already graded. -/
def sampleWorld3 : World :=
  { assignments := [⟨"T1"⟩], allUsers := [userA], studentUsers := [userA],
    fetch := fun a s => if a = 0 ∧ s = 1 then some sampleGraded else Option.none,
    editFails := fun _ => false }

/-- Like sampleWorld1 but submission.edit raises for every student. -/
def sampleWorldEF : World :=
  { assignments := [⟨"T1"⟩], allUsers := [userA], studentUsers := [userA],
    fetch := fun a s => if a = 0 ∧ s = 1 then some sampleUngraded else Option.none,
    editFails := fun _ => true }

/-- Oracle that always answers grade "5" with no comment field. -/
def sampleOracle5 : String → OracleRaw :=
  fun _ => OracleRaw.obj ⟨some (Json.str "5"), Option.none⟩

/-- Oracle whose chat completion returns empty content for the answer
"ans" and grade "5" otherwise. -/
def sampleOracleFail : String → OracleRaw :=
  fun s => if s = "ans" then OracleRaw.nothing else OracleRaw.obj ⟨some (Json.str "5"), Option.none⟩

/-- Oracle that always answers grade "3" with comment "fix q2". -/
def sampleOracleC : String → OracleRaw :=
  fun _ => OracleRaw.obj ⟨some (Json.str "3"), some (Json.str "fix q2")⟩

/-- Modelled from the spec wording of the Submission Gate: the existing
grade is checked across the fields in precedence order, first non-empty
wins.  Stated with List.find? so that its agreement with the probe loop of
_grade_of is a real lemma rather than a restatement. -/
def specFirstNonEmpty (l : List (Option String)) : String :=
  match l.find? (fun o => match o with | some v => v != "" | Option.none => false) with
  | some (some v) => v
  | _ => ""

/-- C1: the claim states that a student whose processing ends in a Manual
defer sees zero persist attempts in the run.  Evaluating main at the
failing input refutes this: the single ungraded student is deferred to
Manual in the first pass (inputs m then y, zero writes there), but the
second grading pass of main (lines 263-372) re-fetches the still-ungraded
submission and performs a persist attempt for the same student, so the
full run makes exactly one grade write for a Manual-deferred student. -/
theorem c1_manual_defer_persisted_by_second_pass :
    (process_student sampleWorld1 sampleOracle5 0 userA false Mode.full
        ["m", "y", "1"]).2.2.1 = Except.ok POutcome.manualDeferred ∧
    (Grader.main ⟨Option.none, 1, false, Mode.full⟩ sampleWorld1 sampleOracle5
        ["m", "y", "1"]).1 =
      [Effect.fetchSub 1, Effect.oracleCall "ans",
       Effect.fetchSub 1, Effect.oracleCall "ans",
       Effect.persist 1 ⟨PyFloat.finite 5, Option.none⟩] := by
  exact ⟨by decide, by decide⟩

/-- C2: the claim states the batch driver catches any per-student
exception and continues, so a run always completes the roster.  This is
false at a concrete input: with two ungraded students A (id 1) and B
(id 2) and an oracle whose call for A raises (content None), the run
aborts with that exception after A; B is never even fetched, so the
error crossed the student-iteration boundary and the roster was not
completed. -/
theorem c2_oracle_error_halts_roster :
    (Grader.main ⟨Option.none, 1, false, Mode.none⟩ sampleWorld2 sampleOracleFail []).1 =
      [Effect.fetchSub 1, Effect.oracleCall "ans"] ∧
    (Grader.main ⟨Option.none, 1, false, Mode.none⟩ sampleWorld2 sampleOracleFail []).2.1 =
      Except.error "Model returned nothing" := by
  exact ⟨by decide, by decide⟩

/-- C3: the claim states that with the dry-run flag no persist call is
ever made during the run.  Evaluating main at the failing input refutes
this: under dry-run and confirmation mode none, the first pass only
reports the intended write, but the second grading pass of main ignores
args.dry_run and calls submission.edit directly, persisting a grade. -/
theorem c3_dry_run_persists_in_second_pass :
    (Grader.main ⟨Option.none, 1, true, Mode.none⟩ sampleWorld1 sampleOracle5 ["1"]).1 =
      [Effect.fetchSub 1, Effect.oracleCall "ans",
       Effect.dryRunReport ⟨PyFloat.finite 5, Option.none⟩,
       Effect.fetchSub 1, Effect.oracleCall "ans",
       Effect.persist 1 ⟨PyFloat.finite 5, Option.none⟩] ∧
    (Grader.main ⟨Option.none, 1, true, Mode.none⟩ sampleWorld1 sampleOracle5 ["1"]).2.1 =
      Except.ok () := by
  exact ⟨by decide, by decide⟩

/-- C2 (amended): the batch driver does not catch per-student exceptions.
A per-student error (in particular an oracle error) propagates out of the
first loop of main: the run keeps exactly the effects and residual state
of the failing student and the remaining students are never processed.
Only LMS-write errors are caught (inside apply_update, which logs the
exception and returns normally, leaving the store unchanged), so only
those do not halt the iteration. -/
theorem c2_amended_error_propagation :
    (∀ (w : World) (oracle : String → OracleRaw) (aidx : Nat) (u : User) (rest : List User)
        (dr : Bool) (m : Mode) (inputs : List String) (e : String),
        (process_student w oracle aidx u dr m inputs).2.2.1 = Except.error e →
        runPass1 w oracle aidx (u :: rest) dr m inputs =
          ((process_student w oracle aidx u dr m inputs).1,
           (process_student w oracle aidx u dr m inputs).2.1,
           Except.error e,
           (process_student w oracle aidx u dr m inputs).2.2.2))
    ∧ (∀ (w : World) (aidx sid : Nat) (g : PyFloat) (c : String),
        w.editFails sid = true →
        apply_update w aidx sid g c false =
          ([Effect.persist sid ⟨g, if c ≠ "" then some c else Option.none⟩], w)) := by
  constructor
  · intro w oracle aidx u rest dr m inputs e h
    simp only [runPass1, h]
  · intro w aidx sid g c h
    simp [apply_update, h]

/-- Witness for C2 (amended): with two ungraded students and an oracle
failing for the first, the first loop stops with exactly the failing
student's effects; and a failing edit under apply_update is attempted,
caught, and leaves the store unchanged. -/
theorem c2_amended_error_propagation_witness :
    runPass1 sampleWorld2 sampleOracleFail 0 [userA, userB] false Mode.none [] =
      ([Effect.fetchSub 1, Effect.oracleCall "ans"], [],
        Except.error "Model returned nothing", sampleWorld2) ∧
    apply_update sampleWorldEF 0 1 (PyFloat.finite 5) "" false =
      ([Effect.persist 1 ⟨PyFloat.finite 5, Option.none⟩], sampleWorldEF) :=
  ⟨c2_amended_error_propagation.1 sampleWorld2 sampleOracleFail 0 userA [userB] false Mode.none []
      "Model returned nothing" (by decide),
   c2_amended_error_propagation.2 sampleWorldEF 0 1 (PyFloat.finite 5) "" (by decide)⟩

/-- C4: whenever the first per-student loop ends without an exception,
main unconditionally continues into the second grading pass, whose whole
behaviour is runPass2 applied to the residual world and stdin — a function
that takes neither args.dry_run nor args.confirmation (first conjunct, for
every value of both flags); runPass2 itself re-reads the course data,
prompts for a task number and rebuilds the student list (its definition).
In that pass a student with a successful oracle result and empty comment
is written back by a direct submission.edit with no prompt and no dry-run
branch (second conjunct), and one with a non-empty comment first consumes
the grade/comment override prompts and is then written (third conjunct). -/
theorem c4_second_pass_structure :
    (∀ (w : World) (oracle : String → OracleRaw) (sArg : Option (List String)) (tn : Int)
        (d : Bool) (m : Mode) (inputs : List String) (aidx : Nat),
        choose_assignment w.assignments tn = Except.ok aidx →
        (runPass1 w oracle aidx (build_students_to_process w sArg).2 d m inputs).2.2.1 =
          Except.ok () →
        Grader.main ⟨sArg, tn, d, m⟩ w oracle inputs =
          ((build_students_to_process w sArg).1 ++
             (runPass1 w oracle aidx (build_students_to_process w sArg).2 d m inputs).1 ++
             (runPass2 (runPass1 w oracle aidx (build_students_to_process w sArg).2 d m inputs).2.2.2
                oracle sArg
                (runPass1 w oracle aidx (build_students_to_process w sArg).2 d m inputs).2.1).1,
           (runPass2 (runPass1 w oracle aidx (build_students_to_process w sArg).2 d m inputs).2.2.2
              oracle sArg
              (runPass1 w oracle aidx (build_students_to_process w sArg).2 d m inputs).2.1).2.1,
           (runPass2 (runPass1 w oracle aidx (build_students_to_process w sArg).2 d m inputs).2.2.2
              oracle sArg
              (runPass1 w oracle aidx (build_students_to_process w sArg).2 d m inputs).2.1).2.2))
    ∧ (∀ (w : World) (oracle : String → OracleRaw) (aidx : Nat) (u : User) (inputs : List String)
        (ans : String) (res : GradingResult),
        _grade_of (w.fetch aidx u.id) = "" →
        body_of (w.fetch aidx u.id) = some ans →
        ask_model (oracle ans) = Except.ok res →
        res.comment = "" →
        w.editFails u.id = false →
        pass2_student w oracle aidx u inputs =
          ([Effect.fetchSub u.id, Effect.oracleCall ans,
            Effect.persist u.id ⟨res.grade, Option.none⟩],
           inputs, Except.ok (), w.applyEdit aidx u.id res.grade))
    ∧ (∀ (w : World) (oracle : String → OracleRaw) (aidx : Nat) (u : User) (gIn cIn : String)
        (rest : List String) (ans : String) (res : GradingResult),
        _grade_of (w.fetch aidx u.id) = "" →
        body_of (w.fetch aidx u.id) = some ans →
        ask_model (oracle ans) = Except.ok res →
        res.comment ≠ "" →
        pyStrip gIn = "" →
        pyStrip cIn = "" →
        w.editFails u.id = false →
        pass2_student w oracle aidx u (gIn :: cIn :: rest) =
          ([Effect.fetchSub u.id, Effect.oracleCall ans,
            Effect.persist u.id ⟨res.grade, some res.comment⟩],
           rest, Except.ok (), w.applyEdit aidx u.id res.grade)) := by
  refine ⟨?_, ?_, ?_⟩
  · intro w oracle sArg tn d m inputs aidx h1 h2
    simp only [Grader.main, h1, h2]
  · intro w oracle aidx u inputs ans res h1 h2 h3 h4 h5
    simp [pass2_student, pass2_edit, h1, h2, h3, h4, h5]
  · intro w oracle aidx u gIn cIn rest ans res h1 h2 h3 h4 h5 h6 h7
    simp [pass2_student, pass2_edit, grade_override_loop, comment_override,
      h1, h2, h3, h4, h5, h6, h7]

/-- Witness for C4: the decomposition applied under two different flag
vectors (dry-run/none and live/full) over the same graded roster, and the
two pass2_student shapes at concrete inputs. -/
theorem c4_second_pass_structure_witness :
    Grader.main ⟨Option.none, 1, true, Mode.none⟩ sampleWorld3 sampleOracle5 ["1"] =
      ([Effect.fetchSub 1, Effect.fetchSub 1], Except.ok (), sampleWorld3) ∧
    Grader.main ⟨Option.none, 1, false, Mode.full⟩ sampleWorld3 sampleOracle5 ["1"] =
      ([Effect.fetchSub 1, Effect.fetchSub 1], Except.ok (), sampleWorld3) ∧
    pass2_student sampleWorld1 sampleOracle5 0 userA ["x"] =
      ([Effect.fetchSub 1, Effect.oracleCall "ans",
        Effect.persist 1 ⟨PyFloat.finite 5, Option.none⟩],
       ["x"], Except.ok (), sampleWorld1.applyEdit 0 1 (PyFloat.finite 5)) ∧
    pass2_student sampleWorld1 sampleOracleC 0 userA ["", ""] =
      ([Effect.fetchSub 1, Effect.oracleCall "ans",
        Effect.persist 1 ⟨PyFloat.finite 3, some "fix q2"⟩],
       [], Except.ok (), sampleWorld1.applyEdit 0 1 (PyFloat.finite 3)) :=
  ⟨c4_second_pass_structure.1 sampleWorld3 sampleOracle5 Option.none 1 true Mode.none ["1"] 0
     (by decide) (by decide),
   c4_second_pass_structure.1 sampleWorld3 sampleOracle5 Option.none 1 false Mode.full ["1"] 0
     (by decide) (by decide),
   c4_second_pass_structure.2.1 sampleWorld1 sampleOracle5 0 userA ["x"] "ans"
     ⟨PyFloat.finite 5, ""⟩ (by decide) (by decide) (by decide) (by decide) (by decide),
   c4_second_pass_structure.2.2 sampleWorld1 sampleOracleC 0 userA "" "" [] "ans"
     ⟨PyFloat.finite 3, "fix q2"⟩ (by decide) (by decide) (by decide) (by decide) (by decide)
     (by decide) (by decide)⟩

/-- Agreement of the probe loop of _grade_of with the spec-side
first-non-empty selection. -/
theorem probeFields_eq_spec :
    ∀ l : List (Option String), probeFields l = specFirstNonEmpty l := by
  intro l
  induction l with
  | nil => rfl
  | cons o t ih =>
    cases o with
    | none => simpa [probeFields, specFirstNonEmpty, List.find?] using ih
    | some v =>
      by_cases hv : v = ""
      · subst hv
        simpa [probeFields, specFirstNonEmpty, List.find?] using ih
      · have hb : (v != "") = true := by simp [hv]
        simp [probeFields, specFirstNonEmpty, List.find?, hv, hb]

/-- C5: a fetched submission carrying a non-empty existing grade makes
process_student return the already-graded skip with that grade string,
with no oracle call, no write and an unchanged world, for every
confirmation mode and dry-run flag (first conjunct); the second-pass loop
skips it the same way (second conjunct); and the existing-grade value is
exactly the first non-empty field among score, grade, posted_grade,
entered_grade in that precedence order (third conjunct, against the
spec-side selection). -/
theorem c5_already_graded_skips :
    (∀ (w : World) (oracle : String → OracleRaw) (aidx : Nat) (u : User) (dr : Bool) (m : Mode)
        (inputs : List String),
        _grade_of (w.fetch aidx u.id) ≠ "" →
        process_student w oracle aidx u dr m inputs =
          ([Effect.fetchSub u.id], inputs,
           Except.ok (POutcome.skippedGraded (_grade_of (w.fetch aidx u.id))), w))
    ∧ (∀ (w : World) (oracle : String → OracleRaw) (aidx : Nat) (u : User) (inputs : List String),
        _grade_of (w.fetch aidx u.id) ≠ "" →
        pass2_student w oracle aidx u inputs = ([Effect.fetchSub u.id], inputs, Except.ok (), w))
    ∧ (∀ sub : Submission,
        _grade_of (some sub) =
          specFirstNonEmpty [sub.score, sub.grade, sub.posted_grade, sub.entered_grade]) := by
  refine ⟨?_, ?_, ?_⟩
  · intro w oracle aidx u dr m inputs h
    simp [process_student, h]
  · intro w oracle aidx u inputs h
    simp [pass2_student, h]
  · intro sub
    simp [_grade_of, probeFields_eq_spec]

/-- Witness for C5 at a graded submission (score "4"). -/
theorem c5_already_graded_skips_witness :
    _grade_of (sampleWorld3.fetch 0 1) ≠ "" ∧
    process_student sampleWorld3 sampleOracle5 0 userA false Mode.full ["x"] =
      ([Effect.fetchSub 1], ["x"], Except.ok (POutcome.skippedGraded "4"), sampleWorld3) ∧
    pass2_student sampleWorld3 sampleOracle5 0 userA ["x"] =
      ([Effect.fetchSub 1], ["x"], Except.ok (), sampleWorld3) ∧
    _grade_of (some sampleGraded) = specFirstNonEmpty
      [sampleGraded.score, sampleGraded.grade, sampleGraded.posted_grade,
       sampleGraded.entered_grade] :=
  ⟨by decide,
   c5_already_graded_skips.1 sampleWorld3 sampleOracle5 0 userA false Mode.full ["x"] (by decide),
   c5_already_graded_skips.2.1 sampleWorld3 sampleOracle5 0 userA ["x"] (by decide),
   c5_already_graded_skips.2.2 sampleGraded⟩

/-- C6: under confirmation mode none and a live run, every grading result
(grade g, comment c) is auto-applied unedited: process_student consumes no
operator input and the single write attempt carries the payload posted
grade g together with the comment exactly when c is non-empty and no
comment dict at all when c is empty. -/
theorem c6_mode_none_exact_write :
    ∀ (w : World) (oracle : String → OracleRaw) (aidx : Nat) (u : User) (inputs : List String)
      (ans : String) (g : PyFloat) (c : String),
      _grade_of (w.fetch aidx u.id) = "" →
      body_of (w.fetch aidx u.id) = some ans →
      ask_model (oracle ans) = Except.ok ⟨g, c⟩ →
      process_student w oracle aidx u false Mode.none inputs =
        ([Effect.fetchSub u.id, Effect.oracleCall ans,
          Effect.persist u.id ⟨g, if c ≠ "" then some c else Option.none⟩],
         inputs, Except.ok POutcome.applied,
         if w.editFails u.id then w else w.applyEdit aidx u.id g) := by
  intro w oracle aidx u inputs ans g c h1 h2 h3
  by_cases hef : w.editFails u.id
  · simp [process_student, apply_update, should_prompt, h1, h2, h3, hef]
  · simp [process_student, apply_update, should_prompt, h1, h2, h3, hef]

/-- Witness for C6 at a concrete ungraded student and comment-free result. -/
theorem c6_mode_none_exact_write_witness :
    process_student sampleWorld1 sampleOracle5 0 userA false Mode.none ["x"] =
      ([Effect.fetchSub 1, Effect.oracleCall "ans",
        Effect.persist 1 ⟨PyFloat.finite 5, Option.none⟩],
       ["x"], Except.ok POutcome.applied, sampleWorld1.applyEdit 0 1 (PyFloat.finite 5)) :=
  c6_mode_none_exact_write sampleWorld1 sampleOracle5 0 userA ["x"] "ans" (PyFloat.finite 5) ""
    (by decide) (by decide) (by decide)

/-- C7: the confirmation dispatch of process_student.  should_prompt is
true for mode full always, false for mode none always, and true for mode
mistakes exactly when the comment is non-empty; and process_student
auto-applies via apply_update when should_prompt is false and enters the
interactive loop when it is true. -/
theorem c7_confirmation_dispatch :
    (∀ c : String, should_prompt Mode.full c = true)
    ∧ (∀ c : String, should_prompt Mode.none c = false)
    ∧ (∀ c : String, should_prompt Mode.mistakes c = true ↔ c ≠ "")
    ∧ (∀ (w : World) (oracle : String → OracleRaw) (aidx : Nat) (u : User) (dr : Bool) (m : Mode)
        (inputs : List String) (ans : String) (res : GradingResult),
        _grade_of (w.fetch aidx u.id) = "" →
        body_of (w.fetch aidx u.id) = some ans →
        ask_model (oracle ans) = Except.ok res →
        should_prompt m res.comment = false →
        process_student w oracle aidx u dr m inputs =
          (Effect.fetchSub u.id :: Effect.oracleCall ans ::
             (apply_update w aidx u.id res.grade res.comment dr).1,
           inputs, Except.ok POutcome.applied,
           (apply_update w aidx u.id res.grade res.comment dr).2))
    ∧ (∀ (w : World) (oracle : String → OracleRaw) (aidx : Nat) (u : User) (dr : Bool) (m : Mode)
        (inputs : List String) (ans : String) (res : GradingResult),
        _grade_of (w.fetch aidx u.id) = "" →
        body_of (w.fetch aidx u.id) = some ans →
        ask_model (oracle ans) = Except.ok res →
        should_prompt m res.comment = true →
        process_student w oracle aidx u dr m inputs =
          (Effect.fetchSub u.id :: Effect.oracleCall ans ::
             (interactive_loop w aidx u.id dr res.grade res.comment inputs).1,
           (interactive_loop w aidx u.id dr res.grade res.comment inputs).2.1,
           (interactive_loop w aidx u.id dr res.grade res.comment inputs).2.2.1,
           (interactive_loop w aidx u.id dr res.grade res.comment inputs).2.2.2)) := by
  refine ⟨?_, ?_, ?_, ?_, ?_⟩
  · intro c; rfl
  · intro c; rfl
  · intro c; simp [should_prompt]
  · intro w oracle aidx u dr m inputs ans res h1 h2 h3 h4
    simp [process_student, h1, h2, h3, h4]
  · intro w oracle aidx u dr m inputs ans res h1 h2 h3 h4
    simp [process_student, h1, h2, h3, h4]

/-- Witness for C7: the dispatch table at concrete comments and both
process_student shapes at concrete scenarios (auto-apply under none, and
the interactive loop under full answered with Accept). -/
theorem c7_confirmation_dispatch_witness :
    should_prompt Mode.full "" = true ∧
    should_prompt Mode.none "x" = false ∧
    should_prompt Mode.mistakes "hello" = true ∧
    process_student sampleWorld1 sampleOracle5 0 userA false Mode.none ["x"] =
      ([Effect.fetchSub 1, Effect.oracleCall "ans",
        Effect.persist 1 ⟨PyFloat.finite 5, Option.none⟩],
       ["x"], Except.ok POutcome.applied, sampleWorld1.applyEdit 0 1 (PyFloat.finite 5)) ∧
    process_student sampleWorld1 sampleOracle5 0 userA false Mode.full ["a"] =
      ([Effect.fetchSub 1, Effect.oracleCall "ans",
        Effect.persist 1 ⟨PyFloat.finite 5, Option.none⟩],
       [], Except.ok POutcome.applied, sampleWorld1.applyEdit 0 1 (PyFloat.finite 5)) :=
  ⟨c7_confirmation_dispatch.1 "",
   c7_confirmation_dispatch.2.1 "x",
   (c7_confirmation_dispatch.2.2.1 "hello").mpr (by decide),
   c7_confirmation_dispatch.2.2.2.1 sampleWorld1 sampleOracle5 0 userA false Mode.none ["x"]
     "ans" ⟨PyFloat.finite 5, ""⟩ (by decide) (by decide) (by decide) (by decide),
   c7_confirmation_dispatch.2.2.2.2 sampleWorld1 sampleOracle5 0 userA false Mode.full ["a"]
     "ans" ⟨PyFloat.finite 5, ""⟩ (by decide) (by decide) (by decide) (by decide)⟩

/-- C8 (counterexample): the claim states the returned grade is a finite
floating-point number whenever no error is raised.  False: for the
structured response with grade field "inf" the float builtin succeeds, so
ask_model raises no error and returns the non-finite value inf. -/
theorem c8_nonfinite_grade_accepted :
    ask_model (OracleRaw.obj ⟨some (Json.str "inf"), Option.none⟩) =
      Except.ok ⟨PyFloat.inf, ""⟩ ∧
    PyFloat.inf.isFinite = false :=
  ⟨by decide, rfl⟩

/-- C8 (amended): for every structured oracle response, ask_model raises
an error exactly when the grade field is absent or cannot be coerced by
the float builtin; otherwise it returns the coerced floating-point value —
which need not be finite, since strings such as "inf" or "nan" coerce —
together with the comment field, which defaults to the empty string when
absent. -/
theorem c8_amended_oracle_parse_contract :
    ∀ r : StructuredResponse,
      ((∃ e, ask_model (OracleRaw.obj r) = Except.error e) ↔
        (r.grade = Option.none ∨ ∃ j, r.grade = some j ∧ pyFloatOfJson j = Option.none))
      ∧ (∀ j g, r.grade = some j → pyFloatOfJson j = some g →
          ask_model (OracleRaw.obj r) =
            Except.ok ⟨g, pyStrOfJson ((r.comment).getD (Json.str ""))⟩)
      ∧ (∀ j g, r.grade = some j → pyFloatOfJson j = some g → r.comment = Option.none →
          ask_model (OracleRaw.obj r) = Except.ok ⟨g, ""⟩) := by
  intro r
  refine ⟨?_, ?_, ?_⟩
  · cases hgf : r.grade with
    | none => simp [ask_model, hgf]
    | some j =>
      cases hpf : pyFloatOfJson j with
      | none => simp [ask_model, hgf, hpf]
      | some g => simp [ask_model, hgf, hpf]
  · intro j g hj hg
    simp [ask_model, hj, hg]
  · intro j g hj hg hc
    simp [ask_model, hj, hg, hc, pyStrOfJson]

/-- Witness for C8 (amended): a missing grade field errors; a numeric
string grade with a comment parses to that value and comment; a JSON
number grade with no comment field defaults the comment to empty. -/
theorem c8_amended_oracle_parse_contract_witness :
    (∃ e, ask_model (OracleRaw.obj ⟨Option.none, Option.none⟩) = Except.error e) ∧
    ask_model (OracleRaw.obj ⟨some (Json.str "2.5"), some (Json.str "needs work")⟩) =
      Except.ok ⟨PyFloat.finite (Rat.divInt 5 2), "needs work"⟩ ∧
    ask_model (OracleRaw.obj ⟨some (Json.num 3), Option.none⟩) =
      Except.ok ⟨PyFloat.finite 3, ""⟩ :=
  ⟨(c8_amended_oracle_parse_contract ⟨Option.none, Option.none⟩).1.mpr (Or.inl rfl),
   (c8_amended_oracle_parse_contract ⟨some (Json.str "2.5"), some (Json.str "needs work")⟩).2.1
     (Json.str "2.5") (PyFloat.finite (Rat.divInt 5 2)) rfl (by decide),
   (c8_amended_oracle_parse_contract ⟨some (Json.num 3), Option.none⟩).2.2
     (Json.num 3) (PyFloat.finite 3) rfl (by decide) rfl⟩

/-- Closed form of the name-resolution loop. -/
theorem buildFromNames_eq :
    ∀ (users : List User) (names : List String),
      buildFromNames users names =
        ((names.filter fun n => (lookupUser users n).isNone).map Effect.warnNotFound,
         names.filterMap fun n => lookupUser users n) := by
  intro users names
  induction names with
  | nil => rfl
  | cons n t ih =>
    cases hl : lookupUser users n with
    | none => simp [buildFromNames, hl, ih, List.filter_cons, List.filterMap_cons]
    | some u => simp [buildFromNames, hl, ih, List.filter_cons, List.filterMap_cons]

/-- C9: with an explicit name list, the resolver returns, in the order of
the given names, the exact-match roster user for each name (filterMap of
the dict lookup — so duplicate names produce duplicate entries and the
output order follows the name list, not the roster), and emits exactly one
warning per unmatched name while never failing the run (the resolver is a
total function). -/
theorem c9_explicit_roster_resolution :
    ∀ (w : World) (names : List String),
      build_students_to_process w (some names) =
        ((names.filter fun n => (lookupUser w.allUsers n).isNone).map Effect.warnNotFound,
         names.filterMap fun n => lookupUser w.allUsers n) := by
  intro w names
  simp [build_students_to_process, buildFromNames_eq]

/-- C10: the Assignment Selector errors exactly when the course has no
assignments or the 1-indexed task number is below 1 or above the
assignment count (first conjunct); in range it selects the assignment at
the 1-indexed position in natural order (second conjunct); and when it
errors, main stops with that error having produced no effect at all — no
student fetched, no oracle call, no write (third conjunct). -/
theorem c10_assignment_selector_fatal_or_select :
    (∀ (assignments : List Assignment) (tn : Int),
        (∃ e, choose_assignment assignments tn = Except.error e) ↔
          (assignments = [] ∨ tn < 1 ∨ tn > (assignments.length : Int)))
    ∧ (∀ (assignments : List Assignment) (tn : Int),
        1 ≤ tn → tn ≤ (assignments.length : Int) →
        choose_assignment assignments tn = Except.ok (tn - 1).toNat ∧
        ∃ a, assignments.get? (tn - 1).toNat = some a)
    ∧ (∀ (args : Args) (w : World) (oracle : String → OracleRaw) (inputs : List String)
        (e : String),
        choose_assignment w.assignments args.task_num = Except.error e →
        Grader.main args w oracle inputs = ([], Except.error e, w)) := by
  refine ⟨?_, ?_, ?_⟩
  · intro assignments tn
    simp only [choose_assignment]
    split_ifs with h0 h1
    · simp [List.length_eq_zero.mp h0]
    · constructor
      · intro _; exact Or.inr h1
      · intro _; exact ⟨"Invalid task_num", rfl⟩
    · constructor
      · rintro ⟨e, he⟩; cases he
      · rintro (h | h)
        · exact absurd (by simp [h]) h0
        · exact absurd h h1
  · intro assignments tn h1 h2
    have h0 : ¬ assignments.length = 0 := by omega
    have hr : ¬ (tn < 1 ∨ tn > (assignments.length : Int)) := by omega
    refine ⟨by simp [choose_assignment, h0, hr], ?_⟩
    have hlt : (tn - 1).toNat < assignments.length := by omega
    exact ⟨assignments.get ⟨(tn - 1).toNat, hlt⟩, List.get?_eq_get hlt⟩
  · intro args w oracle inputs e h
    simp [Grader.main, h]

/-- Witness for C10: the empty course errors; a one-assignment course with
task number 1 selects position 0; and main with the out-of-range task
number 2 over a one-assignment course stops with the error and an empty
effect trace. -/
theorem c10_assignment_selector_fatal_or_select_witness :
    (∃ e, choose_assignment ([] : List Assignment) 1 = Except.error e) ∧
    (choose_assignment [⟨"T1"⟩] 1 = Except.ok 0 ∧
      ∃ a, [(⟨"T1"⟩ : Assignment)].get? 0 = some a) ∧
    Grader.main ⟨Option.none, 2, false, Mode.full⟩ sampleWorld1 sampleOracle5 [] =
      ([], Except.error "Invalid task_num", sampleWorld1) :=
  ⟨(c10_assignment_selector_fatal_or_select.1 [] 1).mpr (Or.inl rfl),
   c10_assignment_selector_fatal_or_select.2.1 [⟨"T1"⟩] 1 (by decide) (by decide),
   c10_assignment_selector_fatal_or_select.2.2 ⟨Option.none, 2, false, Mode.full⟩
     sampleWorld1 sampleOracle5 [] "Invalid task_num" (by decide)⟩
